import Mathlib

/-!
# A shallow embedding of the Netter process supervisor (`CliInterface`)

This file embeds the process-supervisor component of the Netter desktop
front-end (`cli_interface.cpp`, class `CliInterface`) into Lean 4 and proves
properties of its lifecycle control, output classification and event
emission.

Modelling conventions:

* The mutable fields of the C++ object (`m_serverRunning`, `m_serverHostPort`,
  the `QProcess` handle) become a `CliState` record threaded explicitly.
* Qt signal emissions (`processStarted`, `processError`, `serverStarted`,
  `serverStopped`, `serverError`, `outputReceived`) become values of an
  `Event` type collected in a list, in emission order.
* OS-level effects on the child process (`start`, `terminate`, `kill`,
  `waitForStarted`, `waitForFinished`, `QThread::msleep`) become values of an
  `Action` type collected in a list, in issuing order.
* The outcomes of the environment (does the file exist, does the process
  launch within the timeout, does it exit within a wait) are supplied as
  boolean oracle records, one field per `waitFor...` call in the source.
* `QRegularExpression("server starting at ([^\\s]+)").match(chunk)` is
  embedded as a scan over the chunk's characters: find the first occurrence
  of the literal `server starting at ` that is followed by at least one
  non-whitespace character, and capture the maximal run of non-whitespace
  characters after it (the regex `[^\s]+` is greedy).
-/

namespace Netter

/-- The six Qt signals of `CliInterface`, as a tagged event type.
`processStarted` is the spec's `ProcessLaunched`, `serverStarted` the spec's
`ServerReady`, `outputReceived` the spec's `OutputChunk`. -/
inductive Event : Type
  | processStarted (command : String)
  | processError (message : String)
  | serverStarted (hostPort : String)
  | serverStopped
  | serverError (message : String)
  | outputReceived (text : String)
  deriving DecidableEq, Repr

/-- OS-level actions issued to the child-process handle, in order. -/
inductive Action : Type
  | spawn (program : String) (args : List String)
  | waitStarted (ms : Nat)
  | waitFinished (ms : Nat)
  | waitFinishedUnbounded
  | terminate
  | kill
  | sleep (ms : Nat)
  deriving DecidableEq, Repr

/-- The `QProcess::ProcessError` enumeration, as matched in
`CliInterface::handleProcessError`. -/
inductive ProcErr : Type
  | failedToStart
  | crashed
  | timedout
  | writeError
  | readError
  | unknownError
  deriving DecidableEq, Repr

/-- The mutable state of a `CliInterface` object:
`serverRunning` is `m_serverRunning`, `serverHostPort` is `m_serverHostPort`,
`args` is `m_process->arguments()` (set by the last `m_process->start` call),
`procAlive` is `m_process->state() != QProcess::NotRunning`, and
`aliveCount` counts the OS processes currently alive and attributable to
this supervisor (bookkeeping for the single-process invariant; it is not a
C++ field). -/
structure CliState : Type where
  serverRunning : Bool
  serverHostPort : String
  args : List String
  procAlive : Bool
  aliveCount : Nat
  deriving DecidableEq, Repr

/-- The state established by the `CliInterface` constructor:
`m_serverRunning = false`, `m_serverHostPort = ""`, a fresh `QProcess`
with no child process. -/
def initState : CliState :=
  { serverRunning := false
    serverHostPort := ""
    args := []
    procAlive := false
    aliveCount := 0 }

/-- `\s` of `QRegularExpression`, restricted to the ASCII whitespace
characters that can occur in process output. -/
def isWs (c : Char) : Bool :=
  c = ' ' || c = '\t' || c = '\n' || c = '\r' || c = '\x0b' || c = '\x0c'

/-- The maximal run of non-whitespace characters at the head of the list:
the greedy `[^\s]+` capture (possibly empty here; emptiness is rejected by
the caller). -/
def takeNonWs : List Char → List Char
  | [] => []
  | c :: cs => if isWs c then [] else c :: takeNonWs cs

/-- The literal part of the readiness pattern `server starting at ([^\s]+)`. -/
def markerLit : List Char := "server starting at ".toList

/-- Scan for the first position where the literal `server starting at `
matches and is followed by at least one non-whitespace character; return the
greedy capture. This is
`QRegularExpression("server starting at ([^\\s]+)").match(text)`:
a position where the literal matches but `[^\s]+` cannot (next character is
whitespace or end of input) is not a match, and the engine keeps scanning. -/
def matchServerStarting : List Char → Option String
  | [] => none
  | c :: cs =>
    if markerLit.isPrefixOf (c :: cs) then
      let cap := takeNonWs ((c :: cs).drop markerLit.length)
      if cap.isEmpty then matchServerStarting cs
      else some (String.mk cap)
    else matchServerStarting cs

/-- `CliInterface::handleProcessOutput`: read whatever is available on
stdout (`out`) and stderr (`err`).  A non-empty stdout chunk is forwarded as
`outputReceived` and then matched — as one chunk, with no line-reassembly
buffer — against `server starting at ([^\s]+)`; a match stores the capture
in `m_serverHostPort`, sets `m_serverRunning`, and emits `serverStarted`.
A non-empty stderr chunk is forwarded as `outputReceived` and, if
`m_serverRunning` is false at that moment, additionally emitted as
`serverError`. -/
def handleProcessOutput (s : CliState) (out err : String) :
    CliState × List Event :=
  let step1 :=
    if out ≠ "" then
      match matchServerStarting out.toList with
      | some cap =>
          ({ s with serverHostPort := cap, serverRunning := true },
           [Event.outputReceived out, Event.serverStarted cap])
      | none => (s, [Event.outputReceived out])
    else (s, [])
  let s1 := step1.1
  let evs2 :=
    if err ≠ "" then
      Event.outputReceived err ::
        (if s1.serverRunning then [] else [Event.serverError err])
    else []
  (s1, step1.2 ++ evs2)

/-- `CliInterface::handleProcessError`: build the message for the
`QProcess::ProcessError` value, emit `processError`, then unconditionally
clear `m_serverRunning` and emit `serverStopped`. -/
def procErrMessage : ProcErr → String
  | ProcErr.failedToStart =>
      "Failed to start Netter process: executable not found or insufficient permissions"
  | ProcErr.crashed => "Netter process crashed"
  | ProcErr.timedout => "Netter process timed out"
  | ProcErr.writeError => "Error writing to Netter process"
  | ProcErr.readError => "Error reading from Netter process"
  | ProcErr.unknownError => "Unknown error with Netter process"

/-- `CliInterface::handleProcessError` (the slot body): emits
`processError{message}` and then, with no guard on `m_serverRunning`,
sets `m_serverRunning = false` and emits `serverStopped`. -/
def handleProcessError (s : CliState) (e : ProcErr) : CliState × List Event :=
  ({ s with serverRunning := false },
   [Event.processError (procErrMessage e), Event.serverStopped])

/-- `CliInterface::handleProcessFinished`: if `m_serverRunning` is set,
clear it and emit `serverStopped`; otherwise do nothing.  The exit code and
exit status only select the log message, which is not an event. -/
def handleProcessFinished (s : CliState) (_exitCode : Int)
    (_normalExit : Bool) : CliState × List Event :=
  if s.serverRunning then
    ({ s with serverRunning := false }, [Event.serverStopped])
  else (s, [])

/-- Environment outcomes consumed by one `CliInterface::stopServer` call:
`gracefulExit` is the return value of `m_process->waitForFinished(3000)`
after `terminate()`. -/
structure StopEnv : Type where
  gracefulExit : Bool
  deriving DecidableEq, Repr

/-- `CliInterface::stopServer`: if `m_serverRunning` is false, return true
at once (no actions, no events).  Otherwise, if the process handle is still
running: `terminate()`, wait up to 3000 ms; on timeout `kill()` — with no
wait after the kill.  Then set `m_serverRunning = false`, emit
`serverStopped`, return true.  A graceful exit within the wait is an
observed exit (`procAlive := false`, no OS process left); after a bare
`kill()` the handle has not yet observed the exit (`procAlive` stays true)
and the doomed process may still be alive for an instant. -/
def stopServer (s : CliState) (env : StopEnv) :
    CliState × List Event × List Action × Bool :=
  if !s.serverRunning then (s, [], [], true)
  else
    let part :=
      if s.procAlive then
        if env.gracefulExit then
          ({ s with procAlive := false, aliveCount := 0 },
           [Action.terminate, Action.waitFinished 3000])
        else
          (s, [Action.terminate, Action.waitFinished 3000, Action.kill])
      else (s, [])
    ({ part.1 with serverRunning := false }, [Event.serverStopped],
     part.2, true)

/-- Environment outcomes consumed by one `CliInterface::startServer` call:
`fileExists` is `QFileInfo::exists(filePath)`; `resolve` is
`QFileInfo(filePath).absoluteFilePath()`; `cleanupGraceful` is the return
value of `m_process->waitForFinished(3000)` in the stale-handle cleanup;
`startOk` is `m_process->waitForStarted(5000)`; `errStr` is
`m_process->errorString()` on launch failure. -/
structure StartEnv : Type where
  fileExists : Bool
  resolve : String → String
  cleanupGraceful : Bool
  startOk : Bool
  errStr : String

/-- `CliInterface::startServer(filePath)`:
1. return false if `m_serverRunning`;
2. return false and emit `processError` if the file does not exist;
3. if the process handle is not `NotRunning`, force-cleanup the stale
   process: `terminate()`, wait 3000 ms, and if still alive `kill()`
   followed by an unbounded `waitForFinished()` — either way the old
   process is observed dead before reuse;
4. build the fixed invocation `netter parse --path <absolutePath>`, emit
   `processStarted{command string}`, spawn;
5. wait up to 5000 ms for launch; on failure emit `processError` and
   return false; on success return true.
`m_serverRunning` is not set here: the `Starting → Running` transition is
driven by `handleProcessOutput`. -/
def startServer (s : CliState) (filePath : String) (env : StartEnv) :
    CliState × List Event × List Action × Bool :=
  if s.serverRunning then (s, [], [], false)
  else if !env.fileExists then
    (s, [Event.processError ("Input file does not exist: " ++ filePath)],
     [], false)
  else
    let cleanup :=
      if s.procAlive then
        if env.cleanupGraceful then
          ({ s with procAlive := false, aliveCount := 0 },
           [Action.terminate, Action.waitFinished 3000])
        else
          ({ s with procAlive := false, aliveCount := 0 },
           [Action.terminate, Action.waitFinished 3000, Action.kill,
            Action.waitFinishedUnbounded])
      else (s, [])
    let s1 := cleanup.1
    let absPath := env.resolve filePath
    let args := ["parse", "--path", absPath]
    let command := "netter " ++ String.intercalate " " args
    let acts := cleanup.2 ++ [Action.spawn "netter" args, Action.waitStarted 5000]
    if env.startOk then
      ({ s1 with args := args, procAlive := true,
                 aliveCount := s1.aliveCount + 1 },
       [Event.processStarted command], acts, true)
    else
      ({ s1 with args := args },
       [Event.processStarted command,
        Event.processError ("Failed to start Netter server: " ++ env.errStr)],
       acts, false)

/-- `CliInterface::restartServer`: return false if `m_serverRunning` is not
set.  Otherwise capture `m_process->arguments().last()` (the absolute
configuration path of the current invocation), call `stopServer()`, sleep a
fixed 500 ms, and call `startServer` with the captured path. -/
def restartServer (s : CliState) (stopEnv : StopEnv) (startEnv : StartEnv) :
    CliState × List Event × List Action × Bool :=
  if !s.serverRunning then (s, [], [], false)
  else
    let filePath := s.args.getLastD ""
    let stopped := stopServer s stopEnv
    let started := startServer stopped.1 filePath startEnv
    (started.1, stopped.2.1 ++ started.2.1,
     stopped.2.2.1 ++ [Action.sleep 500] ++ started.2.2.1,
     started.2.2.2)

/-- Environment outcomes consumed by one `CliInterface::isNetterAvailable`
call: `startedInTime` is `checkProcess.waitForStarted(3000)`,
`finishedInTime` is `checkProcess.waitForFinished(5000)`, `exitCode` is
`checkProcess.exitCode()`. -/
structure ProbeEnv : Type where
  startedInTime : Bool
  finishedInTime : Bool
  exitCode : Int
  deriving DecidableEq, Repr

/-- `CliInterface::isNetterAvailable`: run `netter --version` on a local,
freshly constructed `QProcess` (not `m_process`); false if the process does
not start within 3000 ms; false (after `terminate()`) if it does not finish
within 5000 ms; otherwise true exactly when the exit code is 0.  Every
outcome is a plain boolean return — the function body has no throw and
emits no signal. -/
def isNetterAvailable (env : ProbeEnv) : Bool × List Action :=
  let acts0 := [Action.spawn "netter" ["--version"], Action.waitStarted 3000]
  if !env.startedInTime then (false, acts0)
  else if !env.finishedInTime then
    (false, acts0 ++ [Action.waitFinished 5000, Action.terminate])
  else (decide (env.exitCode = 0), acts0 ++ [Action.waitFinished 5000])

/-- Boolean recognizers on events, used to count classifier emissions. -/
def Event.isServerStarted : Event → Bool
  | Event.serverStarted _ => true
  | _ => false

def Event.isServerError : Event → Bool
  | Event.serverError _ => true
  | _ => false

def Action.isSpawn : Action → Bool
  | Action.spawn _ _ => true
  | _ => false

/-- One step of the supervisor's interaction with its environment: a consumer
call (`start`/`stop`/`restart`) with the environment outcomes it will
observe, or the delivery of a Qt notification (`readyRead...`,
`errorOccurred`, `finished`) from the child process. -/
inductive Cmd : Type
  | start (path : String) (env : StartEnv)
  | stop (env : StopEnv)
  | restart (stopEnv : StopEnv) (startEnv : StartEnv)
  | deliverOut (out err : String)
  | deliverErr (e : ProcErr)
  | deliverFinished (code : Int) (normal : Bool)

/-- The state transition, emitted events and issued actions of one `Cmd`.
A `deliverFinished` notification reports the exit of the child process, so
it clears `procAlive` and `aliveCount` before running the
`handleProcessFinished` slot body. -/
def step (s : CliState) : Cmd → CliState × List Event × List Action
  | Cmd.start path env =>
      let r := startServer s path env
      (r.1, r.2.1, r.2.2.1)
  | Cmd.stop env =>
      let r := stopServer s env
      (r.1, r.2.1, r.2.2.1)
  | Cmd.restart stopEnv startEnv =>
      let r := restartServer s stopEnv startEnv
      (r.1, r.2.1, r.2.2.1)
  | Cmd.deliverOut out err =>
      let r := handleProcessOutput s out err
      (r.1, r.2, [])
  | Cmd.deliverErr e =>
      let r := handleProcessError s e
      (r.1, r.2, [])
  | Cmd.deliverFinished code normal =>
      let r := handleProcessFinished
        { s with procAlive := false, aliveCount := 0 } code normal
      (r.1, r.2, [])

/-- Run a command trace from a state, collecting all events and actions in
order. -/
def run (s : CliState) : List Cmd → CliState × List Event × List Action
  | [] => (s, [], [])
  | c :: cs =>
      let r := step s c
      let rest := run r.1 cs
      (rest.1, r.2.1 ++ rest.2.1, r.2.2 ++ rest.2.2)

/-- The resource invariant: at most one OS process is alive and attributable
to the supervisor, and a process handle in the `NotRunning` state owns no
live process. -/
def Inv (s : CliState) : Prop :=
  s.aliveCount ≤ 1 ∧ (s.procAlive = false → s.aliveCount = 0)

lemma inv_initState : Inv initState := by
  constructor <;> simp [initState]

lemma startServer_inv {s : CliState} (path : String) (env : StartEnv)
    (h : Inv s) : Inv (startServer s path env).1 := by
  obtain ⟨h1, h2⟩ := h
  unfold startServer Inv
  split_ifs with hr hf hp hg hok hok hok <;> simp_all

lemma stopServer_inv {s : CliState} (env : StopEnv)
    (h : Inv s) : Inv (stopServer s env).1 := by
  obtain ⟨h1, h2⟩ := h
  unfold stopServer Inv
  split_ifs with hr hp hg <;> simp_all

lemma restartServer_inv {s : CliState} (stopEnv : StopEnv)
    (startEnv : StartEnv) (h : Inv s) :
    Inv (restartServer s stopEnv startEnv).1 := by
  unfold restartServer
  split_ifs with hr
  · exact h
  · exact startServer_inv _ _ (stopServer_inv _ h)

lemma handleProcessOutput_alive (s : CliState) (out err : String) :
    (handleProcessOutput s out err).1.procAlive = s.procAlive ∧
    (handleProcessOutput s out err).1.aliveCount = s.aliveCount := by
  unfold handleProcessOutput
  by_cases ho : out = "" <;>
    cases hm : matchServerStarting out.toList <;> simp [ho, hm]

lemma handleProcessOutput_inv {s : CliState} (out err : String)
    (h : Inv s) : Inv (handleProcessOutput s out err).1 := by
  obtain ⟨ha, hb⟩ := handleProcessOutput_alive s out err
  unfold Inv
  rw [ha, hb]
  exact h

lemma step_inv {s : CliState} (c : Cmd) (h : Inv s) : Inv (step s c).1 := by
  cases c with
  | start path env => exact startServer_inv path env h
  | stop env => exact stopServer_inv env h
  | restart e1 e2 => exact restartServer_inv e1 e2 h
  | deliverOut out err => exact handleProcessOutput_inv out err h
  | deliverErr e =>
      obtain ⟨h1, h2⟩ := h
      exact ⟨h1, h2⟩
  | deliverFinished code normal =>
      unfold step handleProcessFinished
      split_ifs <;> exact ⟨by simp, by simp⟩

lemma run_inv {s : CliState} (cs : List Cmd) (h : Inv s) :
    Inv (run s cs).1 := by
  induction cs generalizing s with
  | nil => exact h
  | cons c cs ih => exact ih (step_inv c h)

/-- A benign environment for `startServer`: the file exists, path
resolution is the identity, any stale process exits gracefully, and the
launch succeeds. -/
def envOK : StartEnv :=
  { fileExists := true
    resolve := fun p => p
    cleanupGraceful := true
    startOk := true
    errStr := "" }

/-- A stdout chunk carrying the whole readiness marker line. -/
def markerChunk : String := "server starting at 127.0.0.1:9090\n"

/-- The state after one successful `startServer` and no output yet: the
Starting phase (process alive, running flag still clear). -/
def startingState : CliState :=
  (run initState [Cmd.start "routes.rt" envOK]).1

/-- The state after a successful `startServer` followed by the readiness
marker on stdout: the Running phase. -/
def runningState : CliState :=
  (run initState [Cmd.start "routes.rt" envOK,
                  Cmd.deliverOut markerChunk ""]).1

/-- The trace of the split-marker scenario: one launch, then the readiness
marker delivered split across two stdout chunks. -/
def c1Trace : List Cmd :=
  [Cmd.start "routes.rt" envOK,
   Cmd.deliverOut "server star" "",
   Cmd.deliverOut "ting at 127.0.0.1:9090\n" ""]

/-- The trace of one generation that reaches Running, receives a
`WriteError` notification (which clears the running flag without the
process exiting), and then produces a stderr chunk. -/
def c6Trace : List Cmd :=
  [Cmd.start "routes.rt" envOK,
   Cmd.deliverOut markerChunk "",
   Cmd.deliverErr ProcErr.writeError,
   Cmd.deliverOut "" "oops"]

end Netter

namespace Netter

example : matchServerStarting "server star".toList = none := by decide

example : matchServerStarting "ting at 127.0.0.1:9090\n".toList = none := by
  decide

example :
    matchServerStarting "server starting at 127.0.0.1:9090\n".toList =
      some "127.0.0.1:9090" := by decide

end Netter

namespace Netter

/-- C1 (counterexample): delivering the readiness marker split across the
two stdout chunks `"server star"` and `"ting at 127.0.0.1:9090\n"` after a
successful launch yields zero `serverStarted` events in the whole trace
(the claim requires exactly one `ServerReady{"127.0.0.1:9090"}`); the trace
spawns exactly one process, so this is one process generation. -/
theorem C1_split_marker_zero_ready :
    ((run initState c1Trace).2.1).countP Event.isServerStarted = 0 ∧
    ((run initState c1Trace).2.2).countP Action.isSpawn = 1 := by decide

/-- C1 (amended): `handleProcessOutput` applies the pattern
`server starting at ([^\s]+)` to each stdout chunk independently, with no
line-reassembly buffer and no per-generation dedup guard: a non-empty chunk
without a full in-chunk match is forwarded only as `outputReceived`, and a
chunk matching the pattern — in any state, including one whose running flag
is already set — is forwarded and additionally emits `serverStarted` with
the captured endpoint, setting the running flag and stored endpoint. -/
theorem C1_per_chunk_classification (s : CliState) (out : String)
    (h : out ≠ "") :
    (matchServerStarting out.toList = none →
      handleProcessOutput s out "" = (s, [Event.outputReceived out])) ∧
    (∀ cap, matchServerStarting out.toList = some cap →
      handleProcessOutput s out "" =
        ({ s with serverHostPort := cap, serverRunning := true },
         [Event.outputReceived out, Event.serverStarted cap])) := by
  constructor
  · intro hm
    have hm' : matchServerStarting out.data = none := hm
    simp [handleProcessOutput, h, hm']
  · intro cap hm
    have hm' : matchServerStarting out.data = some cap := hm
    simp [handleProcessOutput, h, hm']

/-- C1 witness: the amended theorem evaluated on the whole-marker chunk. -/
theorem C1_per_chunk_classification_witness :
    handleProcessOutput initState markerChunk "" =
      ({ initState with serverHostPort := "127.0.0.1:9090",
                        serverRunning := true },
       [Event.outputReceived markerChunk,
        Event.serverStarted "127.0.0.1:9090"]) :=
  (C1_per_chunk_classification initState markerChunk (by decide)).2
    "127.0.0.1:9090" (by decide)

end Netter

namespace Netter

/-- C3 (counterexample): in the Starting phase — reached by a successful
`startServer` whose readiness marker has not yet been observed, so the
running flag is clear while the process is alive — a second `startServer`
does not fail fast: it returns true and issues a spawn (the claim requires
`start()` to return false and spawn no process in every non-Idle state). -/
theorem C3_start_in_starting_phase_spawns :
    startingState.serverRunning = false ∧
    startingState.procAlive = true ∧
    (startServer startingState "routes.rt" envOK).2.2.2 = true ∧
    ((startServer startingState "routes.rt" envOK).2.2.1).countP
      Action.isSpawn = 1 := by decide

/-- C3 (amended): `startServer` fails fast — returning false with no
events and no actions, hence no spawn — exactly when the running flag
`m_serverRunning` is set (the Running state); in the Starting phase (flag
clear, process alive) it instead force-cleans the stale process and
proceeds to spawn a new one, and no Stopping state exists (`stopServer` is
synchronous). -/
theorem C3_fail_fast_only_when_running (s : CliState) (path : String)
    (env : StartEnv) (h : s.serverRunning = true) :
    startServer s path env = (s, [], [], false) := by
  simp [startServer, h]

/-- C3 witness: the amended fail-fast behaviour evaluated on the reachable
Running state. -/
theorem C3_fail_fast_only_when_running_witness :
    startServer runningState "routes.rt" envOK =
      (runningState, [], [], false) :=
  C3_fail_fast_only_when_running runningState "routes.rt" envOK (by decide)

/-- C5 (confirmed): (1) along every command trace from the constructor
state, at most one OS process is alive and attributable to the supervisor
at any instant; (2) whenever `startServer` proceeds past its guards with a
stale live handle, the spawn is preceded by the forced cleanup sequence —
`terminate`, bounded 3000 ms wait, and, if the wait fails, `kill` followed
by an unbounded wait — so the old process is observed dead before the new
spawn. -/
theorem C5_at_most_one_process :
    (∀ cmds : List Cmd, ((run initState cmds).1).aliveCount ≤ 1) ∧
    (∀ (s : CliState) (path : String) (env : StartEnv),
      s.serverRunning = false → env.fileExists = true → s.procAlive = true →
      (startServer s path env).2.2.1 =
        ([Action.terminate, Action.waitFinished 3000] ++
          (if env.cleanupGraceful then []
           else [Action.kill, Action.waitFinishedUnbounded])) ++
        [Action.spawn "netter" ["parse", "--path", env.resolve path],
         Action.waitStarted 5000]) := by
  constructor
  · intro cmds
    exact (run_inv cmds inv_initState).1
  · intro s path env h1 h2 h3
    obtain ⟨fe, res, cg, ok, es⟩ := env
    simp only at h2
    subst h2
    cases cg <;> cases ok <;> simp [startServer, h1, h3]

/-- C5 witness: the cleanup-before-spawn conjunct evaluated on the
reachable Starting-phase state. -/
theorem C5_at_most_one_process_witness :
    (startServer startingState "routes.rt" envOK).2.2.1 =
      ([Action.terminate, Action.waitFinished 3000] ++
        (if envOK.cleanupGraceful then []
         else [Action.kill, Action.waitFinishedUnbounded])) ++
      [Action.spawn "netter" ["parse", "--path", envOK.resolve "routes.rt"],
       Action.waitStarted 5000] :=
  C5_at_most_one_process.2 startingState "routes.rt" envOK (by decide) rfl
    (by decide)

/-- C6 (counterexample): in a generation that already emitted
`serverStarted` (readiness), a `WriteError` notification clears the running
flag without the process exiting; a stderr chunk arriving afterwards — in
the same generation, only one process was spawned and no exit was
delivered — is escalated to `serverError` (the claim requires stderr after
readiness never to be escalated). -/
theorem C6_post_ready_stderr_escalated :
    (run initState c6Trace).2.1 =
      [Event.processStarted "netter parse --path routes.rt",
       Event.outputReceived markerChunk,
       Event.serverStarted "127.0.0.1:9090",
       Event.processError "Error writing to Netter process",
       Event.serverStopped,
       Event.outputReceived "oops",
       Event.serverError "oops"] ∧
    ((run initState c6Trace).2.2).countP Action.isSpawn = 1 := by decide

/-- C6 (amended): every non-empty stderr chunk is forwarded as
`outputReceived`, and it is escalated to `serverError` if and only if the
live running flag `m_serverRunning` is false at delivery time; the flag is
set by the readiness marker and cleared by stop, error and finish
notifications, so within a generation undisturbed by such clearings the
condition coincides with "no `serverStarted` yet", but stderr arriving
after a clearing is escalated even though readiness had been emitted. -/
theorem C6_stderr_escalation_by_flag (s : CliState) (err : String)
    (h : err ≠ "") :
    handleProcessOutput s "" err =
      (s, Event.outputReceived err ::
        (if s.serverRunning then [] else [Event.serverError err])) := by
  simp [handleProcessOutput, h]

/-- C6 witness: the amended stderr rule evaluated on the constructor state
(flag clear, so the chunk is both forwarded and escalated). -/
theorem C6_stderr_escalation_by_flag_witness :
    handleProcessOutput initState "" "boom" =
      (initState, Event.outputReceived "boom" ::
        (if initState.serverRunning then []
         else [Event.serverError "boom"])) :=
  C6_stderr_escalation_by_flag initState "boom" (by decide)

end Netter

namespace Netter

/-- C7 (confirmed): the availability probe returns true exactly when the
version-probe process started (within the 3000 ms `waitForStarted`), exited
(within the 5000 ms `waitForFinished`), and returned exit code 0; every
other outcome yields false.  The probe is a total function into `Bool` —
it emits no event and has no failure result, so no error ever reaches its
caller — and its first two actions are the fixed `netter --version` spawn
and the 3000 ms start wait. -/
theorem C7_probe_pure_boolean (env : ProbeEnv) :
    ((isNetterAvailable env).1 = true ↔
      env.startedInTime = true ∧ env.finishedInTime = true ∧
        env.exitCode = 0) ∧
    (isNetterAvailable env).2.take 2 =
      [Action.spawn "netter" ["--version"], Action.waitStarted 3000] := by
  obtain ⟨st, fi, code⟩ := env
  cases st <;> cases fi <;> simp [isNetterAvailable]

/-- C8 (confirmed): `restartServer` returns false with no events and no
actions (hence no spawn) whenever the running flag is clear; when the flag
is set it captures the configuration path of the current invocation
(`m_process->arguments().last()`, read before the stop), executes
`stopServer`, sleeps a fixed 500 ms, and executes `startServer` with the
captured path, returning the start's result. -/
theorem C8_restart_capture_stop_sleep_start :
    (∀ (s : CliState) (e1 : StopEnv) (e2 : StartEnv),
      s.serverRunning = false → restartServer s e1 e2 = (s, [], [], false)) ∧
    (∀ (s : CliState) (e1 : StopEnv) (e2 : StartEnv),
      s.serverRunning = true →
      restartServer s e1 e2 =
        ((startServer (stopServer s e1).1 (s.args.getLastD "") e2).1,
         (stopServer s e1).2.1 ++
           (startServer (stopServer s e1).1 (s.args.getLastD "") e2).2.1,
         (stopServer s e1).2.2.1 ++ [Action.sleep 500] ++
           (startServer (stopServer s e1).1 (s.args.getLastD "") e2).2.2.1,
         (startServer (stopServer s e1).1 (s.args.getLastD "") e2).2.2.2)) := by
  constructor <;> intro s e1 e2 h <;> simp [restartServer, h]

/-- C8 witness: both restart behaviours evaluated — on the constructor
state (not running: false, no spawn) and on the reachable Running state
(stop, sleep 500 ms, start with the captured path). -/
theorem C8_restart_capture_stop_sleep_start_witness :
    restartServer initState { gracefulExit := true } envOK =
      (initState, [], [], false) ∧
    restartServer runningState { gracefulExit := true } envOK =
      ((startServer (stopServer runningState { gracefulExit := true }).1
          (runningState.args.getLastD "") envOK).1,
       (stopServer runningState { gracefulExit := true }).2.1 ++
         (startServer (stopServer runningState { gracefulExit := true }).1
           (runningState.args.getLastD "") envOK).2.1,
       (stopServer runningState { gracefulExit := true }).2.2.1 ++
         [Action.sleep 500] ++
         (startServer (stopServer runningState { gracefulExit := true }).1
           (runningState.args.getLastD "") envOK).2.2.1,
       (startServer (stopServer runningState { gracefulExit := true }).1
         (runningState.args.getLastD "") envOK).2.2.2) :=
  ⟨C8_restart_capture_stop_sleep_start.1 initState { gracefulExit := true }
      envOK rfl,
   C8_restart_capture_stop_sleep_start.2 runningState
      { gracefulExit := true } envOK (by decide)⟩

/-- C10 (confirmed): when the running flag is clear — in particular after a
successful `startServer` whose readiness marker has not yet appeared —
`stopServer` returns true immediately, emits no event, issues no action
(no `terminate`, no `kill`), and leaves the state, including the liveness
of the spawned process, unchanged. -/
theorem C10_stop_in_starting_is_noop (s : CliState) (env : StopEnv)
    (h : s.serverRunning = false) :
    stopServer s env = (s, [], [], true) := by
  simp [stopServer, h]

/-- C10 witness: the no-op stop evaluated on the reachable Starting-phase
state, whose process is alive and stays alive. -/
theorem C10_stop_in_starting_is_noop_witness :
    startingState.procAlive = true ∧
    stopServer startingState { gracefulExit := true } =
      (startingState, [], [], true) :=
  ⟨by decide,
   C10_stop_in_starting_is_noop startingState { gracefulExit := true }
     (by decide)⟩

end Netter
